import Mathlib

/-!
Shallow embedding of the study-plan core of `src/study_plan_generator.py`
(class `StudyPlanGenerator`): the scenario catalog, the activity catalog,
`create_time_slots`, `create_schedule`, `generate_study_plan` and the
row-building part of `export_to_csv` (`flatten_for_export`).

Modelling conventions:
- Python numbers (`hours`, `daily_hours`) are embedded as `ℚ`; Python's
  `round(x, 1)` (round-half-to-even at one decimal) is `round1`, and
  Python's `int(x)` (truncation toward zero) is `pyInt`.
- Calendar dates are embedded as integers counting days: the anchor
  `datetime.now()` date is an injected parameter `start_date : ℤ`, and
  `start_date + timedelta(days=day)` is `start_date + day`.  The
  `strftime('%Y-%m-%d')` formatting step is elided (it is injective on
  dates, so equalities and the strict order of dates are preserved).
- `create_schedule` divides by `days`; on `days = 0` the Python code
  raises `ZeroDivisionError` before anything else happens, embedded as
  `none` of an `Option` result.  No other statement in the embedded code
  can fail.
- File writing and `pandas` are outside the core; `flatten_for_export`
  embeds exactly the `rows` list that `export_to_csv` builds from the plan.
-/

/-- Python's `int(q)` on a rational: truncation toward zero. -/
def pyInt (q : ℚ) : ℤ :=
  if 0 ≤ q then ⌊q⌋ else ⌈q⌉

/-- Round a rational to the nearest integer, ties to even
(the rounding used by Python's builtin `round`). -/
def roundHalfEven (q : ℚ) : ℤ :=
  if q - ⌊q⌋ < 1/2 then ⌊q⌋
  else if 1/2 < q - ⌊q⌋ then ⌊q⌋ + 1
  else if Even ⌊q⌋ then ⌊q⌋ else ⌊q⌋ + 1

/-- Python's `round(q, 1)`: round to one decimal digit, ties to even. -/
def round1 (q : ℚ) : ℚ :=
  (roundHalfEven (10 * q) : ℚ) / 10

/-- One entry of `self.scenarios` in `StudyPlanGenerator.__init__`. -/
structure ScenarioInfo where
  intensity : String
  focus : String
  frequency : String
deriving DecidableEq, Repr

/-- `self.scenarios['exam_prep']`. -/
def examPrepInfo : ScenarioInfo :=
  { intensity := "high"
    focus := "comprehensive review and practice"
    frequency := "daily" }

/-- `self.scenarios['homework']`. -/
def homeworkInfo : ScenarioInfo :=
  { intensity := "medium"
    focus := "specific topics and problem-solving"
    frequency := "as needed" }

/-- `self.scenarios['project']`. -/
def projectInfo : ScenarioInfo :=
  { intensity := "medium"
    focus := "research and application"
    frequency := "regular" }

/-- `self.scenarios.get(scenario, self.scenarios['exam_prep'])`:
dictionary lookup over the three fixed keys, defaulting to the
`exam_prep` entry on any other key. -/
def scenarioLookup (scenario : String) : ScenarioInfo :=
  if scenario = "exam_prep" then examPrepInfo
  else if scenario = "homework" then homeworkInfo
  else if scenario = "project" then projectInfo
  else examPrepInfo

/-- The `'Mathematics'` activity list of `create_schedule`. -/
def mathematicsActivities : List String :=
  ["Review fundamental concepts",
   "Solve practice problems",
   "Work on challenging topics",
   "Complete practice tests",
   "Review mistakes and reinforce"]

/-- The `'Science'` activity list of `create_schedule`. -/
def scienceActivities : List String :=
  ["Read and understand concepts",
   "Create visual diagrams",
   "Conduct experiments or simulations",
   "Solve application problems",
   "Review and consolidate learning"]

/-- The `'History'` activity list of `create_schedule`. -/
def historyActivities : List String :=
  ["Read historical context",
   "Create timelines",
   "Analyze primary sources",
   "Connect events and causes",
   "Review key dates and figures"]

/-- The `'Literature'` activity list of `create_schedule`. -/
def literatureActivities : List String :=
  ["Read assigned texts",
   "Analyze themes and characters",
   "Study literary devices",
   "Write analysis essays",
   "Discuss and review"]

/-- The `'Computer Science'` activity list of `create_schedule`. -/
def computerScienceActivities : List String :=
  ["Study algorithms and concepts",
   "Write and test code",
   "Debug and optimize",
   "Solve coding problems",
   "Review best practices"]

/-- `activities.get(subject, activities['Mathematics'])` in
`create_schedule`: dictionary lookup over the five fixed subjects,
defaulting to the Mathematics list on any other subject. -/
def activitiesFor (subject : String) : List String :=
  if subject = "Mathematics" then mathematicsActivities
  else if subject = "Science" then scienceActivities
  else if subject = "History" then historyActivities
  else if subject = "Literature" then literatureActivities
  else if subject = "Computer Science" then computerScienceActivities
  else mathematicsActivities

/-- One slot dictionary built by `create_time_slots`. -/
structure TimeSlot where
  slot : String
  duration : String
  activity : String
deriving DecidableEq, Repr

/-- `create_time_slots(hours)`: `num_slots = int(hours)` one-hour slots,
the loop index `i` running over `range(num_slots)` with
`start_hour = 9 + i` and `end_hour = start_hour + 1`. -/
def create_time_slots (hours : ℚ) : List TimeSlot :=
  let numSlots : ℕ := (pyInt hours).toNat
  (List.range numSlots).map (fun i =>
    { slot := toString (9 + i) ++ ":00 - " ++ toString (9 + i + 1) ++ ":00"
      duration := "1 hour"
      activity := "Study session " ++ toString (i + 1) })

/-- One `day_schedule` dictionary built by `create_schedule`. -/
structure DaySchedule where
  day : ℕ
  date : ℤ
  hours : ℚ
  activities : String
  time_slots : List TimeSlot
deriving DecidableEq, Repr

/-- `create_schedule(subject, hours, scenario, days)` with the anchor date
injected as `start_date`.  `daily_hours = hours / days` raises
`ZeroDivisionError` when `days = 0` (embedded as `none`); otherwise one
`day_schedule` per `day in range(days)` is appended. -/
def create_schedule (subject : String) (hours : ℚ) (_scenario : String)
    (days : ℕ) (start_date : ℤ) : Option (List DaySchedule) :=
  if days = 0 then none
  else
    let daily_hours : ℚ := hours / (days : ℚ)
    let activities_list := activitiesFor subject
    some ((List.range days).map (fun day =>
      { day := day + 1
        date := start_date + day
        hours := round1 daily_hours
        activities := activities_list.getD (day % activities_list.length) ""
        time_slots := create_time_slots daily_hours }))

/-- The `plan` dictionary built by `generate_study_plan`. -/
structure StudyPlan where
  subject : String
  total_hours : ℚ
  total_days : ℕ
  scenario : String
  intensity : String
  focus : String
  start_date : ℤ
  schedule : List DaySchedule
deriving DecidableEq, Repr

/-- `generate_study_plan(subject, hours, scenario, days)` with the current
date injected as `start_date`.  `days=None` defaults to 5; the scenario
info is resolved through `scenarioLookup`; the schedule comes from
`create_schedule`, whose `ZeroDivisionError` (at `days = 0`) propagates. -/
def generate_study_plan (subject : String) (hours : ℚ) (scenario : String)
    (days : Option ℕ) (start_date : ℤ) : Option StudyPlan :=
  let days := days.getD 5
  let scenario_info := scenarioLookup scenario
  (create_schedule subject hours scenario days start_date).map (fun sched =>
    { subject := subject
      total_hours := hours
      total_days := days
      scenario := scenario
      intensity := scenario_info.intensity
      focus := scenario_info.focus
      start_date := start_date
      schedule := sched })

/-- One row of the `rows` list built by `export_to_csv`. -/
structure ExportRow where
  date : ℤ
  dayLabel : String
  time : String
  activity : String
  duration : String
  subject : String
  scenario : String
deriving DecidableEq, Repr

/-- The row built by `export_to_csv` for one (day, slot) pair. -/
def rowOf (plan : StudyPlan) (day_plan : DaySchedule) (slot : TimeSlot) :
    ExportRow :=
  { date := day_plan.date
    dayLabel := "Day " ++ toString day_plan.day
    time := slot.slot
    activity := day_plan.activities
    duration := slot.duration
    subject := plan.subject
    scenario := plan.scenario }

/-- The `rows` list built by `export_to_csv(plan)`: the nested loop
`for day_plan in plan['schedule']: for slot in day_plan['time_slots']`
appending one row per (day, slot) pair.  The CSV file writing itself is
outside the embedded core. -/
def flatten_for_export (plan : StudyPlan) : List ExportRow :=
  plan.schedule.flatMap (fun day_plan =>
    day_plan.time_slots.map (fun slot => rowOf plan day_plan slot))

/-! ### Helper lemmas about the embedded Python numeric primitives -/

lemma roundHalfEven_abs_sub_le (q : ℚ) : |(roundHalfEven q : ℚ) - q| ≤ 1/2 := by
  have h0 : ((⌊q⌋ : ℤ) : ℚ) ≤ q := Int.floor_le q
  have h1 : q < ((⌊q⌋ : ℤ) : ℚ) + 1 := Int.lt_floor_add_one q
  unfold roundHalfEven
  split_ifs with ha hb hc
  · rw [abs_le]; constructor <;> linarith
  · rw [abs_le]; constructor <;> push_cast <;> linarith
  · rw [abs_le]; constructor <;> linarith [not_lt.mp ha, not_lt.mp hb]
  · rw [abs_le]; constructor <;> push_cast <;>
      linarith [not_lt.mp ha, not_lt.mp hb]

lemma round1_abs_sub_le (q : ℚ) : |round1 q - q| ≤ 1/20 := by
  have h := roundHalfEven_abs_sub_le (10 * q)
  unfold round1
  have heq : (roundHalfEven (10 * q) : ℚ) / 10 - q =
      ((roundHalfEven (10 * q) : ℚ) - 10 * q) / 10 := by ring
  rw [heq, abs_div]
  have h10 : |(10 : ℚ)| = 10 := by norm_num
  rw [h10]
  linarith

lemma roundHalfEven_nonpos {q : ℚ} (hq : q ≤ 0) : roundHalfEven q ≤ 0 := by
  have h0 : ((⌊q⌋ : ℤ) : ℚ) ≤ q := Int.floor_le q
  unfold roundHalfEven
  split_ifs with ha hb hc
  · exact Int.floor_nonpos hq
  · have hlt : ((⌊q⌋ : ℤ) : ℚ) < 0 := by linarith
    have : ⌊q⌋ < 0 := by exact_mod_cast hlt
    omega
  · exact Int.floor_nonpos hq
  · have hba : ¬(q - ((⌊q⌋ : ℤ) : ℚ) < 1/2) := ha
    have hbb : ¬(1/2 < q - ((⌊q⌋ : ℤ) : ℚ)) := hb
    have hlt : ((⌊q⌋ : ℤ) : ℚ) < 0 := by
      have := not_lt.mp hba
      linarith
    have : ⌊q⌋ < 0 := by exact_mod_cast hlt
    omega

lemma round1_nonpos {q : ℚ} (hq : q ≤ 0) : round1 q ≤ 0 := by
  have hn : (roundHalfEven (10 * q) : ℚ) ≤ 0 := by
    exact_mod_cast roundHalfEven_nonpos (by linarith : 10 * q ≤ 0)
  unfold round1
  exact div_nonpos_iff.mpr (Or.inr ⟨hn, by norm_num⟩)

lemma pyInt_of_nonneg {q : ℚ} (hq : 0 ≤ q) : pyInt q = ⌊q⌋ := if_pos hq

lemma pyInt_intCast (z : ℤ) : pyInt (z : ℚ) = z := by
  unfold pyInt
  split_ifs <;> simp

lemma roundHalfEven_intCast (z : ℤ) : roundHalfEven (z : ℚ) = z := by
  unfold roundHalfEven
  rw [Int.floor_intCast]
  simp

lemma round1_intCast (z : ℤ) : round1 (z : ℚ) = z := by
  unfold round1
  have h : (10 : ℚ) * (z : ℚ) = ((10 * z : ℤ) : ℚ) := by push_cast; ring
  rw [h, roundHalfEven_intCast]
  push_cast
  field_simp

lemma create_time_slots_length_of_nonneg {h : ℚ} (hh : 0 ≤ h) :
    (create_time_slots h).length = (⌊h⌋).toNat := by
  simp [create_time_slots, pyInt_of_nonneg hh]

lemma create_time_slots_of_lt_one {h : ℚ} (hh : h < 1) :
    create_time_slots h = [] := by
  unfold create_time_slots pyInt
  split_ifs with h0
  · have hfloor : ⌊h⌋ = 0 := Int.floor_eq_zero_iff.mpr ⟨h0, hh⟩
    simp [hfloor]
  · have hceil : ⌈h⌉ ≤ 0 := Int.ceil_le.mpr
      (by exact_mod_cast le_of_lt (not_le.mp h0))
    have : (⌈h⌉).toNat = 0 := Int.toNat_of_nonpos hceil
    simp [this]

/-! ### Claims -/

/-- C1: for every `days ≥ 1` and `hours > 0`, `create_schedule` returns
a sequence of exactly `days` entries; the entry at 0-based index `i`
(1-based day `i + 1`) has `date = start_date + i`, so dates are strictly
increasing across the sequence. -/
theorem C1_schedule_length_and_dates (subject : String) (hours : ℚ)
    (scenario : String) (days : ℕ) (start_date : ℤ)
    (hdays : 1 ≤ days) (_hhours : 0 < hours) :
    ∃ l : List DaySchedule,
      create_schedule subject hours scenario days start_date = some l ∧
      l.length = days ∧
      (∀ i : ℕ, i < days →
        l[i]?.map DaySchedule.day = some (i + 1) ∧
        l[i]?.map DaySchedule.date = some (start_date + i)) ∧
      (∀ i j : ℕ, i < j → j < days → ∀ di dj : DaySchedule,
        l[i]? = some di → l[j]? = some dj → di.date < dj.date) := by
  have hne : days ≠ 0 := by omega
  unfold create_schedule
  rw [if_neg hne]
  refine ⟨_, rfl, by simp, ?_, ?_⟩
  · intro i hi
    rw [List.getElem?_map, List.getElem?_range hi]
    exact ⟨rfl, rfl⟩
  · intro i j hij hj di dj hdi hdj
    rw [List.getElem?_map, List.getElem?_range (lt_trans hij hj)] at hdi
    rw [List.getElem?_map, List.getElem?_range hj] at hdj
    have hdi' : di.date = start_date + i := by
      cases Option.some.inj hdi; rfl
    have hdj' : dj.date = start_date + j := by
      cases Option.some.inj hdj; rfl
    rw [hdi', hdj']
    omega

/-- C1 witness: the theorem applied at subject "Mathematics", hours 10,
scenario "exam_prep", 5 days, anchor 0. -/
theorem C1_schedule_length_and_dates_witness :
    ∃ l : List DaySchedule,
      create_schedule "Mathematics" 10 "exam_prep" 5 0 = some l ∧
      l.length = 5 ∧
      (∀ i : ℕ, i < 5 →
        l[i]?.map DaySchedule.day = some (i + 1) ∧
        l[i]?.map DaySchedule.date = some (0 + i)) ∧
      (∀ i j : ℕ, i < j → j < 5 → ∀ di dj : DaySchedule,
        l[i]? = some di → l[j]? = some dj → di.date < dj.date) :=
  C1_schedule_length_and_dates "Mathematics" 10 "exam_prep" 5 0
    (by norm_num) (by norm_num)

/-- C2: for every `daily_hours h ≥ 0`, `create_time_slots h` returns
exactly `⌊h⌋` slots (empty when `h < 1`); the slot at 0-based index `i`
(1-based slot `i + 1`) is labeled `"{9+i}:00 - {9+i+1}:00"`, lasts
`"1 hour"` and is `"Study session {i+1}"`; and `create_time_slots (3.7)`
is exactly the three slots "9:00 - 10:00", "10:00 - 11:00",
"11:00 - 12:00". -/
theorem C2_time_slot_partition (h : ℚ) (hh : 0 ≤ h) :
    (create_time_slots h).length = (⌊h⌋).toNat ∧
    (∀ i : ℕ, i < (⌊h⌋).toNat →
      (create_time_slots h)[i]? = some
        { slot := toString (9 + i) ++ ":00 - " ++ toString (9 + i + 1) ++ ":00"
          duration := "1 hour"
          activity := "Study session " ++ toString (i + 1) }) ∧
    create_time_slots (37/10) =
      [{ slot := "9:00 - 10:00", duration := "1 hour",
         activity := "Study session 1" },
       { slot := "10:00 - 11:00", duration := "1 hour",
         activity := "Study session 2" },
       { slot := "11:00 - 12:00", duration := "1 hour",
         activity := "Study session 3" }] := by
  refine ⟨create_time_slots_length_of_nonneg hh, ?_, ?_⟩
  · intro i hi
    unfold create_time_slots
    rw [pyInt_of_nonneg hh]
    rw [List.getElem?_map, List.getElem?_range hi]
    rfl
  · have h37 : pyInt (37/10) = 3 := by unfold pyInt; norm_num
    simp only [create_time_slots]
    rw [h37]
    rfl

/-- C2 witness: the theorem applied at `h = 3.7`. -/
theorem C2_time_slot_partition_witness :
    (create_time_slots (37/10)).length = (⌊(37/10 : ℚ)⌋).toNat ∧
    create_time_slots (37/10) =
      [{ slot := "9:00 - 10:00", duration := "1 hour",
         activity := "Study session 1" },
       { slot := "10:00 - 11:00", duration := "1 hour",
         activity := "Study session 2" },
       { slot := "11:00 - 12:00", duration := "1 hour",
         activity := "Study session 3" }] :=
  ⟨(C2_time_slot_partition (37/10) (by norm_num)).1,
   (C2_time_slot_partition (37/10) (by norm_num)).2.2⟩

/-- Unfolding lemma: the schedule list produced on a non-zero day count. -/
lemma create_schedule_eq (subject : String) (hours : ℚ) (scenario : String)
    (days : ℕ) (start_date : ℤ) (hne : days ≠ 0) :
    create_schedule subject hours scenario days start_date =
      some ((List.range days).map (fun day =>
        { day := day + 1
          date := start_date + day
          hours := round1 (hours / (days : ℚ))
          activities := (activitiesFor subject).getD
            (day % (activitiesFor subject).length) ""
          time_slots := create_time_slots (hours / (days : ℚ)) })) := by
  unfold create_schedule
  rw [if_neg hne]

/-- Unfolding lemma: the plan produced on a non-zero day count. -/
lemma generate_study_plan_eq (subject : String) (hours : ℚ)
    (scenario : String) (days : ℕ) (start_date : ℤ) (hne : days ≠ 0) :
    generate_study_plan subject hours scenario (some days) start_date =
      some { subject := subject
             total_hours := hours
             total_days := days
             scenario := scenario
             intensity := (scenarioLookup scenario).intensity
             focus := (scenarioLookup scenario).focus
             start_date := start_date
             schedule := (List.range days).map (fun day =>
               { day := day + 1
                 date := start_date + day
                 hours := round1 (hours / (days : ℚ))
                 activities := (activitiesFor subject).getD
                   (day % (activitiesFor subject).length) ""
                 time_slots := create_time_slots (hours / (days : ℚ)) }) } := by
  unfold generate_study_plan
  simp only [Option.getD_some, create_schedule_eq subject hours scenario
    days start_date hne]
  rfl

/-- C3: the code contradicts the claim.  `create_schedule` with `days = 0`
hits the unguarded division `hours / days` and dies with a bare
`ZeroDivisionError` (the `none` of the embedding), not a structured
InvalidDayCount error rejected before the division; and with
`hours = -3` no InvalidHours error exists anywhere: both
`create_schedule` and `generate_study_plan` return a normal plan. -/
theorem C3_no_input_validation_in_code :
    create_schedule "Mathematics" 10 "exam_prep" 0 0 = none ∧
    (create_schedule "Mathematics" (-3) "exam_prep" 5 0).isSome = true ∧
    (generate_study_plan "Mathematics" (-3) "exam_prep" (some 5) 0).isSome
      = true := by
  refine ⟨rfl, ?_, ?_⟩ <;> simp [generate_study_plan, create_schedule]

/-- C7: `scenarioLookup` is total by construction, and on every key other
than the three catalog keys it returns exactly the `exam_prep` entry. -/
theorem C7_unknown_scenario_defaults (k : String)
    (h1 : k ≠ "exam_prep") (h2 : k ≠ "homework") (h3 : k ≠ "project") :
    scenarioLookup k = scenarioLookup "exam_prep" ∧
    scenarioLookup k = examPrepInfo := by
  constructor <;> simp [scenarioLookup, h1, h2, h3]

/-- C7 witness: the theorem applied at the unknown key "midterm_cram". -/
theorem C7_unknown_scenario_defaults_witness :
    scenarioLookup "midterm_cram" = scenarioLookup "exam_prep" ∧
    scenarioLookup "midterm_cram" = examPrepInfo :=
  C7_unknown_scenario_defaults "midterm_cram"
    (by decide) (by decide) (by decide)

/-- C9: the plan returned by `generate_study_plan` carries the caller's
`subject`, `hours`, `days` and `scenario` key verbatim, and on an unknown
scenario key its `intensity` and `focus` come from the `exam_prep`
default. -/
theorem C9_plan_fields_verbatim (subject : String) (hours : ℚ)
    (scenario : String) (days : ℕ) (start_date : ℤ) (hdays : 1 ≤ days) :
    ∃ p : StudyPlan,
      generate_study_plan subject hours scenario (some days) start_date
        = some p ∧
      p.subject = subject ∧ p.total_hours = hours ∧ p.total_days = days ∧
      p.scenario = scenario ∧
      (scenario ∉ (["exam_prep", "homework", "project"] : List String) →
        p.intensity = examPrepInfo.intensity ∧
        p.focus = examPrepInfo.focus) := by
  have hne : days ≠ 0 := by omega
  rw [generate_study_plan_eq subject hours scenario days start_date hne]
  refine ⟨_, rfl, rfl, rfl, rfl, rfl, ?_⟩
  intro hs
  simp only [List.mem_cons, List.not_mem_nil, or_false] at hs
  push_neg at hs
  obtain ⟨hs1, hs2, hs3⟩ := hs
  have hlook : scenarioLookup scenario = examPrepInfo := by
    simp [scenarioLookup, hs1, hs2, hs3]
  exact ⟨by rw [hlook], by rw [hlook]⟩

/-- C9 witness: the theorem applied at subject "Chemistry", hours 7,
unknown scenario "midterm_cram", 3 days, anchor 0. -/
theorem C9_plan_fields_verbatim_witness :
    ∃ p : StudyPlan,
      generate_study_plan "Chemistry" 7 "midterm_cram" (some 3) 0
        = some p ∧
      p.subject = "Chemistry" ∧ p.total_hours = 7 ∧ p.total_days = 3 ∧
      p.scenario = "midterm_cram" ∧
      ("midterm_cram" ∉ (["exam_prep", "homework", "project"] : List String) →
        p.intensity = examPrepInfo.intensity ∧
        p.focus = examPrepInfo.focus) :=
  C9_plan_fields_verbatim "Chemistry" 7 "midterm_cram" 3 0 (by norm_num)


/-- The displayed hours of a constant-hours schedule sum to
`days * c`. -/
lemma sum_map_hours_const (n : ℕ) (f : ℕ → DaySchedule) (c : ℚ)
    (hf : ∀ i, (f i).hours = c) :
    (((List.range n).map f).map DaySchedule.hours).sum = (n : ℚ) * c := by
  rw [List.map_map]
  have hconst : (DaySchedule.hours ∘ f) = fun _ => c := funext fun i => hf i
  rw [hconst, List.map_const', List.sum_replicate, List.length_range,
    nsmul_eq_mul]

/-- C5: for every `days ≥ 1` and `hours > 0`, the per-day displayed hours
`round1 (hours / days)` summed over the schedule differ from `hours` by at
most `days * 0.05`. -/
theorem C5_hours_sum_tolerance (subject : String) (hours : ℚ)
    (scenario : String) (days : ℕ) (start_date : ℤ)
    (hdays : 1 ≤ days) (_hhours : 0 < hours) :
    ∃ l : List DaySchedule,
      create_schedule subject hours scenario days start_date = some l ∧
      |(l.map DaySchedule.hours).sum - hours| ≤ (days : ℚ) * (1/20) := by
  have hne : days ≠ 0 := by omega
  rw [create_schedule_eq subject hours scenario days start_date hne]
  refine ⟨_, rfl, ?_⟩
  rw [sum_map_hours_const days _ (round1 (hours / (days : ℚ)))
    (fun i => rfl)]
  have habs := round1_abs_sub_le (hours / (days : ℚ))
  have hdpos : (0 : ℚ) < (days : ℚ) := by
    exact_mod_cast Nat.pos_of_ne_zero hne
  have hkey : (days : ℚ) * round1 (hours / (days : ℚ)) - hours =
      (days : ℚ) * (round1 (hours / (days : ℚ)) - hours / (days : ℚ)) := by
    field_simp
    ring
  rw [hkey, abs_mul, abs_of_pos hdpos]
  exact mul_le_mul_of_nonneg_left habs (le_of_lt hdpos)

/-- C5 witness: the theorem applied at hours 10 over 3 days. -/
theorem C5_hours_sum_tolerance_witness :
    ∃ l : List DaySchedule,
      create_schedule "History" 10 "homework" 3 0 = some l ∧
      |(l.map DaySchedule.hours).sum - 10| ≤ ((3 : ℕ) : ℚ) * (1/20) :=
  C5_hours_sum_tolerance "History" 10 "homework" 3 0
    (by norm_num) (by norm_num)

/-- C6: the activity of 0-based schedule entry `i` (1-based day `i + 1`)
is element `i % L` of the subject's activity list (length `L = 5` for
every subject, an unknown subject getting the Mathematics list), so the
assignment is 5-periodic in the day index. -/
theorem C6_activity_cycling (subject : String) (hours : ℚ)
    (scenario : String) (days : ℕ) (start_date : ℤ) (hdays : 1 ≤ days) :
    ∃ l : List DaySchedule,
      create_schedule subject hours scenario days start_date = some l ∧
      (activitiesFor subject).length = 5 ∧
      (∀ i : ℕ, i < days →
        l[i]?.map DaySchedule.activities =
          some ((activitiesFor subject).getD
            (i % (activitiesFor subject).length) "")) ∧
      (∀ i : ℕ, i + 5 < days →
        l[i+5]?.map DaySchedule.activities =
          l[i]?.map DaySchedule.activities) ∧
      (∀ s : String,
        s ∉ (["Mathematics", "Science", "History", "Literature",
              "Computer Science"] : List String) →
        activitiesFor s = mathematicsActivities) := by
  have hne : days ≠ 0 := by omega
  rw [create_schedule_eq subject hours scenario days start_date hne]
  have hlen : (activitiesFor subject).length = 5 := by
    unfold activitiesFor
    split_ifs <;> rfl
  have hact : ∀ i : ℕ, i < days →
      (((List.range days).map (fun day =>
        ({ day := day + 1
           date := start_date + day
           hours := round1 (hours / (days : ℚ))
           activities := (activitiesFor subject).getD
             (day % (activitiesFor subject).length) ""
           time_slots := create_time_slots (hours / (days : ℚ)) }
          : DaySchedule)))[i]?).map DaySchedule.activities =
        some ((activitiesFor subject).getD
          (i % (activitiesFor subject).length) "") := by
    intro i hi
    rw [List.getElem?_map, List.getElem?_range hi]
    rfl
  refine ⟨_, rfl, hlen, hact, ?_, ?_⟩
  · intro i hi
    rw [hact (i + 5) hi, hact i (by omega)]
    have hmod : (i + 5) % (activitiesFor subject).length =
        i % (activitiesFor subject).length := by
      rw [hlen]
      exact Nat.add_mod_right i 5
    rw [hmod]
  · intro s hs
    simp only [List.mem_cons, List.not_mem_nil, or_false] at hs
    push_neg at hs
    obtain ⟨h1, h2, h3, h4, h5⟩ := hs
    simp [activitiesFor, h1, h2, h3, h4, h5]

/-- C6 witness: the theorem applied to the unknown subject "Physics" over
a 7-day plan. -/
theorem C6_activity_cycling_witness :
    ∃ l : List DaySchedule,
      create_schedule "Physics" 14 "project" 7 0 = some l ∧
      (activitiesFor "Physics").length = 5 ∧
      (∀ i : ℕ, i < 7 →
        l[i]?.map DaySchedule.activities =
          some ((activitiesFor "Physics").getD
            (i % (activitiesFor "Physics").length) "")) ∧
      (∀ i : ℕ, i + 5 < 7 →
        l[i+5]?.map DaySchedule.activities =
          l[i]?.map DaySchedule.activities) ∧
      (∀ s : String,
        s ∉ (["Mathematics", "Science", "History", "Literature",
              "Computer Science"] : List String) →
        activitiesFor s = mathematicsActivities) :=
  C6_activity_cycling "Physics" 14 "project" 7 0 (by norm_num)

/-- C10: `create_time_slots` returns the empty sequence for every
`hours < 1` (in particular every negative value) without failing, and
`generate_study_plan` with negative total hours returns a complete plan —
no error — whose days all carry an empty `time_slots` sequence and a
non-positive rounded hours display `round1 (hours / days)`.  (The `ℚ`
embedding collapses the signed zero `-0.0` that Python's `round` can
produce, e.g. at `hours = -0.1, days = 5`, to `0`, so "negative display"
is rendered here as `≤ 0`.) -/
theorem C10_negative_hours_accepted :
    (∀ h : ℚ, h < 1 → create_time_slots h = []) ∧
    (∀ hours : ℚ, hours < 0 → ∀ days : ℕ, 1 ≤ days →
      ∀ (subject scenario : String) (start_date : ℤ),
      ∃ p : StudyPlan,
        generate_study_plan subject hours scenario (some days) start_date
          = some p ∧
        p.schedule.length = days ∧
        ∀ d ∈ p.schedule, d.time_slots = [] ∧
          d.hours = round1 (hours / (days : ℚ)) ∧ d.hours ≤ 0) := by
  constructor
  · intro h hh
    exact create_time_slots_of_lt_one hh
  · intro hours hhours days hdays subject scenario start_date
    have hne : days ≠ 0 := by omega
    have hdpos : (0 : ℚ) < (days : ℚ) := by
      exact_mod_cast Nat.pos_of_ne_zero hne
    have hdneg : hours / (days : ℚ) < 0 := div_neg_of_neg_of_pos hhours hdpos
    rw [generate_study_plan_eq subject hours scenario days start_date hne]
    refine ⟨_, rfl, by simp, ?_⟩
    intro d hd
    simp only [List.mem_map] at hd
    obtain ⟨day, _, rfl⟩ := hd
    refine ⟨create_time_slots_of_lt_one (by linarith), rfl, ?_⟩
    exact round1_nonpos (le_of_lt hdneg)

/-- C10 witness: slots are empty for 0.5 hours and for −3 hours, and the
plan for −3 total hours over 5 days is returned whole. -/
theorem C10_negative_hours_accepted_witness :
    create_time_slots (1/2) = [] ∧ create_time_slots (-3) = [] ∧
    ∃ p : StudyPlan,
      generate_study_plan "Mathematics" (-3) "exam_prep" (some 5) 0
        = some p ∧
      p.schedule.length = 5 ∧
      ∀ d ∈ p.schedule, d.time_slots = [] ∧
        d.hours = round1 ((-3) / ((5 : ℕ) : ℚ)) ∧ d.hours ≤ 0 :=
  ⟨C10_negative_hours_accepted.1 (1/2) (by norm_num),
   C10_negative_hours_accepted.1 (-3) (by norm_num),
   C10_negative_hours_accepted.2 (-3) (by norm_num) 5 (by norm_num)
     "Mathematics" "exam_prep" 0⟩

/-- Position of element `j` of group `i` inside a flattened
list-of-lists: skip the lengths of the first `i` groups. -/
lemma flatMap_getElem?_eq {α β : Type} (g : α → List β) :
    ∀ (l : List α) (i j : ℕ) (a : α), l[i]? = some a → j < (g a).length →
      (l.flatMap g)[(((l.take i).map (fun x => (g x).length)).sum + j)]? =
        (g a)[j]? := by
  intro l
  induction l with
  | nil =>
    intro i j a h _
    simp at h
  | cons x xs ih =>
    intro i j a h hj
    cases i with
    | zero =>
      rw [List.getElem?_cons_zero] at h
      obtain rfl : x = a := Option.some.inj h
      simp only [List.take_zero, List.map_nil, List.sum_nil, Nat.zero_add,
        List.flatMap_cons]
      exact List.getElem?_append_left hj
    | succ i' =>
      rw [List.getElem?_cons_succ] at h
      simp only [List.take_succ_cons, List.map_cons, List.sum_cons,
        List.flatMap_cons]
      rw [List.getElem?_append_right (by omega)]
      have hidx : (g x).length +
            ((xs.take i').map (fun y => (g y).length)).sum + j -
            (g x).length =
          ((xs.take i').map (fun y => (g y).length)).sum + j := by
        omega
      rw [hidx]
      exact ih i' j a h hj

/-- C8: `flatten_for_export` yields one row per (day, slot) pair in day
order then slot order: its length is the sum of the slot counts of the
days (so a day with an empty `time_slots` sequence contributes zero rows
and causes no failure), and the row for slot `j` of day entry `i` sits at
position (slots of days before `i`) + `j` and carries exactly the day's
date, "Day N" label and activity, the slot's label and duration, and the
plan's subject and scenario. -/
theorem C8_flatten_one_row_per_pair (plan : StudyPlan) :
    (flatten_for_export plan).length =
      (plan.schedule.map (fun d => d.time_slots.length)).sum ∧
    (∀ i j : ℕ, ∀ di : DaySchedule, plan.schedule[i]? = some di →
      ∀ s : TimeSlot, di.time_slots[j]? = some s →
        (flatten_for_export plan)[
          (((plan.schedule.take i).map
            (fun d => d.time_slots.length)).sum + j)]? =
          some { date := di.date
                 dayLabel := "Day " ++ toString di.day
                 time := s.slot
                 activity := di.activities
                 duration := s.duration
                 subject := plan.subject
                 scenario := plan.scenario }) := by
  constructor
  · unfold flatten_for_export
    rw [List.length_flatMap]
    have hfun : (List.length ∘ fun day_plan : DaySchedule =>
        day_plan.time_slots.map (fun slot => rowOf plan day_plan slot)) =
        fun d : DaySchedule => d.time_slots.length := by
      funext d
      simp [List.length_map]
    rw [hfun]
  · intro i j di hdi s hs
    have hj : j < di.time_slots.length := by
      by_contra hc
      rw [List.getElem?_eq_none (by omega)] at hs
      exact Option.noConfusion hs
    have key := flatMap_getElem?_eq
      (fun d => d.time_slots.map (fun t => rowOf plan d t))
      plan.schedule i j di hdi (by simpa using hj)
    simp only [List.length_map] at key
    unfold flatten_for_export
    rw [key, List.getElem?_map, hs]
    rfl

/-- A concrete three-day plan (second day slotless) for the C8 witness. -/
def sampleDayA : DaySchedule :=
  { day := 1, date := 100, hours := 2
    activities := "Solve practice problems"
    time_slots := [⟨"9:00 - 10:00", "1 hour", "Study session 1"⟩,
                   ⟨"10:00 - 11:00", "1 hour", "Study session 2"⟩] }

/-- Day two of the C8 witness plan: zero slots. -/
def sampleDayB : DaySchedule :=
  { day := 2, date := 101, hours := 0
    activities := "Review fundamental concepts", time_slots := [] }

/-- Day three of the C8 witness plan. -/
def sampleDayC : DaySchedule :=
  { day := 3, date := 102, hours := 1
    activities := "Work on challenging topics"
    time_slots := [⟨"9:00 - 10:00", "1 hour", "Study session 1"⟩] }

/-- The C8 witness plan. -/
def samplePlan : StudyPlan :=
  { subject := "Mathematics", total_hours := 5, total_days := 3
    scenario := "exam_prep", intensity := "high"
    focus := "comprehensive review and practice", start_date := 100
    schedule := [sampleDayA, sampleDayB, sampleDayC] }

/-- C8 witness: the theorem applied to `samplePlan`; the row after the
slotless second day is the third day's single slot. -/
theorem C8_flatten_one_row_per_pair_witness :
    (flatten_for_export samplePlan).length =
      (samplePlan.schedule.map (fun d => d.time_slots.length)).sum ∧
    (flatten_for_export samplePlan)[
      (((samplePlan.schedule.take 2).map
        (fun d => d.time_slots.length)).sum + 0)]? =
      some { date := sampleDayC.date
             dayLabel := "Day " ++ toString sampleDayC.day
             time := "9:00 - 10:00"
             activity := sampleDayC.activities
             duration := "1 hour"
             subject := samplePlan.subject
             scenario := samplePlan.scenario } :=
  ⟨(C8_flatten_one_row_per_pair samplePlan).1,
   (C8_flatten_one_row_per_pair samplePlan).2 2 0 sampleDayC rfl
     ⟨"9:00 - 10:00", "1 hour", "Study session 1"⟩ rfl⟩

/-- 10 hours over 5 days display as 2.0 hours per day. -/
lemma daily_two_round : round1 ((10 : ℚ) / ((5 : ℕ) : ℚ)) = 2 := by
  have h2 : (10 : ℚ) / ((5 : ℕ) : ℚ) = ((2 : ℤ) : ℚ) := by norm_num
  rw [h2, round1_intCast]
  norm_num

/-- 10 hours over 5 days yield the two slots 9–10 and 10–11. -/
lemma daily_two_slots :
    create_time_slots ((10 : ℚ) / ((5 : ℕ) : ℚ)) =
      [{ slot := "9:00 - 10:00", duration := "1 hour",
         activity := "Study session 1" },
       { slot := "10:00 - 11:00", duration := "1 hour",
         activity := "Study session 2" }] := by
  have h2 : (10 : ℚ) / ((5 : ℕ) : ℚ) = ((2 : ℤ) : ℚ) := by norm_num
  rw [h2]
  unfold create_time_slots
  rw [pyInt_intCast]
  rfl

/-- C4 counterexample: the first slot of the plan for
`generate_study_plan("Mathematics", 10, "exam_prep", 5)` is labeled
`"9:00 - 10:00"` (with spaces around the dash), which is not the string
`"9:00-10:00"` the claim asserts. -/
theorem C4_slot_label_counterexample :
    (((generate_study_plan "Mathematics" 10 "exam_prep" (some 5) 0).bind
        (fun p => p.schedule[0]?)).bind
      (fun d => d.time_slots[0]?)).map TimeSlot.slot
      = some "9:00 - 10:00" ∧
    "9:00 - 10:00" ≠ "9:00-10:00" := by
  refine ⟨?_, by decide⟩
  rw [generate_study_plan_eq "Mathematics" 10 "exam_prep" 5 0
    (by norm_num)]
  simp only [daily_two_slots]
  rfl

/-- C4 amended: `generate_study_plan("Mathematics", 10, "exam_prep", 5)`
yields 5 days, each displaying 2.0 hours with exactly the two slots
labeled "9:00 - 10:00" and "10:00 - 11:00" (the code's format has spaces
around the dash), and flattening the plan yields exactly 10 rows. -/
theorem C4_end_to_end_amended :
    ∃ p : StudyPlan,
      generate_study_plan "Mathematics" 10 "exam_prep" (some 5) 0
        = some p ∧
      p.schedule.length = 5 ∧
      (∀ d ∈ p.schedule, d.hours = 2 ∧
        d.time_slots.map TimeSlot.slot =
          ["9:00 - 10:00", "10:00 - 11:00"]) ∧
      (flatten_for_export p).length = 10 := by
  rw [generate_study_plan_eq "Mathematics" 10 "exam_prep" 5 0
    (by norm_num)]
  refine ⟨_, rfl, by simp, ?_, ?_⟩
  · intro d hd
    simp only [List.mem_map] at hd
    obtain ⟨day, _, rfl⟩ := hd
    refine ⟨daily_two_round, ?_⟩
    rw [daily_two_slots]
    rfl
  · simp only [daily_two_slots]
    rfl
